import Mathlib

/-!
Shallow embedding of the planning and lifecycle core of the `auto_pm`
backend (Python, FastAPI + SQLAlchemy), for checking the natural-language
specification against the code.

Sources embedded here:
  - `backend/app/services/planning.py` (scoring, critical path, prioritization)
  - `backend/app/api/planning.py` (`create_dependency`)
  - `backend/app/models/planning.py` (`Dependency`, `StoryEstimate`)
  - `backend/app/services/lifecycle_analyzer.py` (phase state machine,
    lifecycle initialization)
  - `backend/app/api/lifecycle.py` (`start_phase`, task status updates)

Numeric columns (SQL `Float`) and Python floats are modelled as `ℚ`;
SQL `Integer` columns as `Nat`/`Int`.  Dates and datetimes are modelled as
abstract `Nat` stamps passed in as `today`/`now` parameters (the code calls
`date.today()` / `datetime.utcnow()`).  Python truthiness on nullable
numeric columns (`if estimate.estimate_p50:`, `all([...])`) is modelled
explicitly: a value is truthy iff it is present and non-zero.
-/

namespace AutoPM

/-! ## Scoring engine (`services/planning.py`) -/

/-- Embeds `calculate_rice_score` (services/planning.py:28):
`RICE = (Reach * Impact * Confidence) / Effort`, guarded by
`if effort <= 0: return 0`. -/
def calculate_rice_score (reach : Int) (impact confidence effort : ℚ) : ℚ :=
  if effort ≤ 0 then 0
  else ((reach : ℚ) * impact * confidence) / effort

/-- Embeds `calculate_wsjf_score` (services/planning.py:44):
`WSJF = (business_value + time_criticality + risk_reduction) / job_size`,
guarded by `if job_size <= 0: return 0`. -/
def calculate_wsjf_score (business_value time_criticality risk_reduction job_size : Int) : ℚ :=
  if job_size ≤ 0 then 0
  else ((business_value + time_criticality + risk_reduction : Int) : ℚ) / (job_size : ℚ)

/-- Embeds `calculate_expected_duration` (services/planning.py:67):
PERT weighted average `(p10 + 4*p50 + p90) / 6`. -/
def calculate_expected_duration (p10 p50 p90 : ℚ) : ℚ :=
  (p10 + 4 * p50 + p90) / 6

/-! ## Planning data model (`models/planning.py`) -/

/-- Embeds `ItemType` (models/planning.py:21). -/
inductive ItemType where
  | epic
  | story
  | task
deriving DecidableEq, Repr

/-- Embeds `DependencyType` (models/planning.py:8). -/
inductive DependencyType where
  | blocks
  | depends_on
  | related
deriving DecidableEq, Repr

/-- Embeds `DependencyStatus` (models/planning.py:14). -/
inductive DependencyStatus where
  | pending
  | in_progress
  | resolved
  | blocked
deriving DecidableEq, Repr

/-- Embeds the `Dependency` row (models/planning.py:27).  The model carries
no uniqueness constraint over (project, source, target, kind) and no
check constraint forbidding `source = target`; `id` is the primary key. -/
structure Dependency where
  id : Nat
  project_id : Nat
  source_type : ItemType
  source_id : Nat
  target_type : ItemType
  target_id : Nat
  dependency_type : DependencyType
  status : DependencyStatus
  inferred : Bool
  confidence : Option ℚ
  inference_reason : Option String
  notes : Option String
deriving DecidableEq, Repr

/-- Embeds the `StoryEstimate` row (models/planning.py:147), restricted to
the columns the planning services read or write. -/
structure StoryEstimate where
  story_id : Nat
  estimate_p10 : Option ℚ := none
  estimate_p50 : Option ℚ := none
  estimate_p90 : Option ℚ := none
  rice_reach : Option Int := none
  rice_impact : Option ℚ := none
  rice_confidence : Option ℚ := none
  rice_effort : Option ℚ := none
  rice_score : Option ℚ := none
  wsjf_business_value : Option Int := none
  wsjf_time_criticality : Option Int := none
  wsjf_risk_reduction : Option Int := none
  wsjf_job_size : Option Int := none
  wsjf_score : Option ℚ := none
  cod_weekly : Option ℚ := none
  cod_urgency_profile : Option String := none
deriving DecidableEq, Repr

/-- The fields of a `Story` row read by the planning services:
`id` and the nullable `estimated_hours` column. -/
structure Story where
  id : Nat
  estimated_hours : Option ℚ := none
deriving DecidableEq, Repr

/-- The slice of the database state the planning services touch. -/
structure PlanningDb where
  projects : List Nat
  dependencies : List Dependency
  estimates : List StoryEstimate
  stories : List Story
deriving DecidableEq, Repr

/-- Python truthiness of a nullable numeric value: `None` and `0` are
falsy, everything else truthy. -/
def truthyRat : Option ℚ → Bool
  | none => false
  | some v => v ≠ 0

/-- Python truthiness of a nullable integer value. -/
def truthyInt : Option Int → Bool
  | none => false
  | some v => v ≠ 0

/-! ## Critical path (`services/planning.py:75`, `get_critical_path`)

The Python code keys graph nodes by the string
`f"{item_type.value}:{item_id}"`.  The three `ItemType` values render to
the distinct colon-free words `epic` / `story` / `task`, so that encoding
is injective and we model a node key as the pair itself. -/

/-- Graph node key: `f"{type.value}:{id}"` in the source. -/
structure NodeKey where
  type : ItemType
  id : Nat
deriving DecidableEq, Repr

/-- The adjacency dict `graph: dict[str, list[str]]`, as an insertion-ordered
association list (Python dicts preserve insertion order, which the code
relies on for `graph.keys()` and hence for the tie-break). -/
def Graph := List (NodeKey × List NodeKey)

/-- The `durations: dict[str, float]` dict, insertion-ordered. -/
def DurMap := List (NodeKey × ℚ)

/-- Dict lookup `graph[k]` / `k in graph`. -/
def lookupGraph (g : Graph) (k : NodeKey) : Option (List NodeKey) :=
  match g with
  | [] => none
  | (k0, vs) :: rest => if k0 = k then some vs else lookupGraph rest k

/-- Embeds `graph.setdefault`-style growth: `if source_key not in graph:
graph[source_key] = []` followed by `graph[source_key].append(target_key)`. -/
def addEdge (g : Graph) (k v : NodeKey) : Graph :=
  match g with
  | [] => [(k, [v])]
  | (k0, vs) :: rest =>
      if k0 = k then (k0, vs ++ [v]) :: rest else (k0, vs) :: addEdge rest k v

/-- Dict assignment `durations[k] = d` (overwrite in place, else append). -/
def setDur (m : DurMap) (k : NodeKey) (d : ℚ) : DurMap :=
  match m with
  | [] => [(k, d)]
  | (k0, d0) :: rest =>
      if k0 = k then (k0, d) :: rest else (k0, d0) :: setDur rest k d

/-- Dict read `durations.get(k, 0)`. -/
def durGet (m : DurMap) (k : NodeKey) : ℚ :=
  match m with
  | [] => 0
  | (k0, d0) :: rest => if k0 = k then d0 else durGet rest k

/-- The `else` branch of the duration rule for a Story source
(services/planning.py:104): `story.estimated_hours or 8 if story else 8`
(Python parses this as `(story.estimated_hours or 8) if story else 8`;
`or` falls through on `None` and on `0.0`). -/
def storyFallbackDuration (db : PlanningDb) (storyId : Nat) : ℚ :=
  match db.stories.find? (fun s => s.id = storyId) with
  | some story => if truthyRat story.estimated_hours then story.estimated_hours.getD 0 else 8
  | none => 8

/-- Duration recorded for one edge source (services/planning.py:97-108):
Story sources use `estimate.estimate_p50` when an estimate row exists and
p50 is truthy, else the story fallback; Epic/Task sources get the fixed
default `8`. -/
def sourceDuration (db : PlanningDb) (dep : Dependency) : ℚ :=
  if dep.source_type = ItemType.story then
    match db.estimates.find? (fun e => e.story_id = dep.source_id) with
    | some est =>
        if truthyRat est.estimate_p50 then est.estimate_p50.getD 0
        else storyFallbackDuration db dep.source_id
    | none => storyFallbackDuration db dep.source_id
  else 8

/-- All node keys occurring anywhere in the adjacency structure (used only
as the termination measure of `findAllPaths`, mirroring the fact that DFS
only ever visits keys and targets of the graph). -/
def nodeUniverse (g : Graph) : Finset NodeKey :=
  (g.map Prod.fst).toFinset ∪ (g.map (fun kv => kv.2)).flatten.toFinset

theorem mem_nodeUniverse_of_lookup {g : Graph} {k next : NodeKey} {vs : List NodeKey}
    (h : lookupGraph g k = some vs) (hv : next ∈ vs) : next ∈ nodeUniverse g := by
  induction g with
  | nil => simp [lookupGraph] at h
  | cons hd tl ih =>
      rw [lookupGraph] at h
      by_cases hk : hd.1 = k
      · simp only [hk, if_pos rfl] at h
        cases h
        simp only [nodeUniverse, Finset.mem_union, List.mem_toFinset, List.mem_flatten,
          List.mem_map]
        right
        exact ⟨hd.2, ⟨hd, by simp, rfl⟩, hv⟩
      · simp only [if_neg hk] at h
        have := ih h
        simp only [nodeUniverse, Finset.mem_union, List.mem_toFinset, List.mem_map,
          List.mem_flatten] at this ⊢
        rcases this with h1 | h2
        · rcases h1 with ⟨x, hx, hx2⟩
          exact Or.inl ⟨x, by simp [hx], hx2⟩
        · rcases h2 with ⟨l, ⟨x, hx, hx2⟩, hl⟩
          exact Or.inr ⟨l, ⟨x, by simp [hx], hx2⟩, hl⟩

/-- Embeds the nested `find_all_paths(start, visited)`
(services/planning.py:111-123).  The Python set `visited` is modelled as a
list with membership semantics; `visited.add` / `visited.remove` around the
recursive call become passing `next :: visited` down the branch.
Termination: each recursive call adds one previously unvisited node of the
graph to `visited`. -/
def findAllPaths (g : Graph) (d : DurMap) (start : NodeKey) (visited : List NodeKey) :
    List (List NodeKey × ℚ) :=
  match h : lookupGraph g start with
  | none => [([start], durGet d start)]
  | some succs =>
      if succs.isEmpty then [([start], durGet d start)]
      else
        let paths :=
          (succs.attach.map (fun next =>
            if hv : next.1 ∈ visited then []
            else
              (findAllPaths g d next.1 (next.1 :: visited)).map
                (fun pd => (start :: pd.1, durGet d start + pd.2)))).flatten
        if paths.isEmpty then [([start], durGet d start)] else paths
termination_by ((nodeUniverse g) \ visited.toFinset).card
decreasing_by
  apply Finset.card_lt_card
  constructor
  · intro x hx
    simp only [List.toFinset_cons, Finset.mem_sdiff, Finset.mem_insert] at hx ⊢
    exact ⟨hx.1, fun hx2 => hx.2 (Or.inr hx2)⟩
  · intro hsub
    have hmem : next.1 ∈ nodeUniverse g \ visited.toFinset := by
      simp only [Finset.mem_sdiff, List.mem_toFinset]
      exact ⟨mem_nodeUniverse_of_lookup h next.2, hv⟩
    have := hsub hmem
    simp [List.toFinset_cons] at this

/-- The per-successor branch of `find_all_paths`, with the membership proof
of `attach` discarded: used to restate the body of `findAllPaths` without
the `attach` bookkeeping. -/
theorem findAllPaths_attach_branch (g : Graph) (d : DurMap) (start : NodeKey)
    (visited : List NodeKey) (succs : List NodeKey) :
    (succs.attach.map (fun next =>
        if hv : next.1 ∈ visited then []
        else
          (findAllPaths g d next.1 (next.1 :: visited)).map
            (fun pd => (start :: pd.1, durGet d start + pd.2)))) =
      succs.map (fun next =>
        if next ∈ visited then []
        else
          (findAllPaths g d next (next :: visited)).map
            (fun pd => (start :: pd.1, durGet d start + pd.2))) := by
  simp only [dite_eq_ite]
  exact List.attach_map_coe succs (fun next =>
    if next ∈ visited then []
    else
      (findAllPaths g d next (next :: visited)).map
        (fun pd => (start :: pd.1, durGet d start + pd.2)))

/-- Unfolding equation of `findAllPaths`, stated without `attach` so that
concrete runs and inductions can use it directly. -/
theorem findAllPaths_eq (g : Graph) (d : DurMap) (start : NodeKey) (visited : List NodeKey) :
    findAllPaths g d start visited =
      match lookupGraph g start with
      | none => [([start], durGet d start)]
      | some succs =>
          if succs.isEmpty then [([start], durGet d start)]
          else
            if ((succs.map (fun next =>
                if next ∈ visited then []
                else
                  (findAllPaths g d next (next :: visited)).map
                    (fun pd => (start :: pd.1, durGet d start + pd.2)))).flatten).isEmpty then
              [([start], durGet d start)]
            else
              (succs.map (fun next =>
                if next ∈ visited then []
                else
                  (findAllPaths g d next (next :: visited)).map
                    (fun pd => (start :: pd.1, durGet d start + pd.2)))).flatten := by
  rw [findAllPaths.eq_def]
  rcases h : lookupGraph g start with _ | succs
  · rfl
  · dsimp only
    rw [findAllPaths_attach_branch]

/-- Embeds `max(all_paths, key=lambda x: x[1])` — CPython `max` keeps the
first element and replaces it only on a strictly greater key, so ties go
to the first-discovered path. -/
def maxByDuration : List (List NodeKey × ℚ) → Option (List NodeKey × ℚ)
  | [] => none
  | x :: xs => some (xs.foldl (fun acc y => if y.2 > acc.2 then y else acc) x)

/-- One entry of the result of `get_critical_path`. -/
structure CriticalPathItem where
  item : NodeKey
  duration : ℚ
  total_duration : ℚ
deriving DecidableEq, Repr

/-- Embeds `get_critical_path(project_id, db)` (services/planning.py:75-140):
filter non-resolved edges of the project, build the adjacency dict and the
per-source duration dict in edge order, enumerate all paths from every key
of the graph, and map the maximal-duration path to response items with
`durations.get(item, 0)` per node. -/
def getCriticalPath (db : PlanningDb) (projectId : Nat) : List CriticalPathItem :=
  let dependencies := db.dependencies.filter
    (fun dep => dep.project_id = projectId ∧ dep.status ≠ DependencyStatus.resolved)
  let gd := dependencies.foldl
    (fun (acc : Graph × DurMap) dep =>
      let sourceKey : NodeKey := ⟨dep.source_type, dep.source_id⟩
      let targetKey : NodeKey := ⟨dep.target_type, dep.target_id⟩
      (addEdge acc.1 sourceKey targetKey, setDur acc.2 sourceKey (sourceDuration db dep)))
    ([], [])
  let graph := gd.1
  let durations := gd.2
  let all_paths := (graph.map (fun kv => findAllPaths graph durations kv.1 [kv.1])).flatten
  match maxByDuration all_paths with
  | none => []
  | some (criticalPath, total) =>
      criticalPath.map (fun item => ⟨item, durGet durations item, total⟩)

/-! ## Concrete fixtures for the critical-path scenarios of the spec -/

/-- A manually created, non-inferred `depends_on` edge between two stories
of project 1, in the default `pending` status. -/
def storyDep (i s t : Nat) : Dependency :=
  { id := i, project_id := 1, source_type := ItemType.story, source_id := s,
    target_type := ItemType.story, target_id := t,
    dependency_type := DependencyType.depends_on, status := DependencyStatus.pending,
    inferred := false, confidence := none, inference_reason := none, notes := none }

/-- An edge between two epics of project 1 (epics always get the default
duration 8). -/
def epicDep (i s t : Nat) : Dependency :=
  { id := i, project_id := 1, source_type := ItemType.epic, source_id := s,
    target_type := ItemType.epic, target_id := t,
    dependency_type := DependencyType.depends_on, status := DependencyStatus.pending,
    inferred := false, confidence := none, inference_reason := none, notes := none }

/-- The spec's 3-node chain A→B→C: stories 1→2→3 with `estimate_p50`
values 5, 8, 13 and no resolved edge. -/
def chainDb : PlanningDb :=
  { projects := [1],
    dependencies := [storyDep 1 1 2, storyDep 2 2 3],
    estimates := [{ story_id := 1, estimate_p50 := some 5 },
                  { story_id := 2, estimate_p50 := some 8 },
                  { story_id := 3, estimate_p50 := some 13 }],
    stories := [⟨1, none⟩, ⟨2, none⟩, ⟨3, none⟩] }

/-- The spec's cycle A→B→A over two epics. -/
def cycleDb : PlanningDb :=
  { projects := [1],
    dependencies := [epicDep 1 1 2, epicDep 2 2 1],
    estimates := [],
    stories := [] }

/-- Evaluation of `get_critical_path` on the 3-node chain: the computed
path is [A, B, C]; A and B carry their p50 estimates (5 and 8) because
they occur as edge sources, while C — a target-only node — gets
`durations.get(C, 0) = 0`, so the path total is 13, not 26. -/
theorem getCriticalPath_chainDb :
    getCriticalPath chainDb 1 =
      [⟨⟨ItemType.story, 1⟩, 5, 13⟩, ⟨⟨ItemType.story, 2⟩, 8, 13⟩,
        ⟨⟨ItemType.story, 3⟩, 0, 13⟩] := by
  have hg : ∀ v : List NodeKey,
      lookupGraph
        [(⟨ItemType.story, 1⟩, [⟨ItemType.story, 2⟩]),
         (⟨ItemType.story, 2⟩, [⟨ItemType.story, 3⟩])] ⟨ItemType.story, 3⟩ = none := by
    intro v; rfl
  have hC1 : findAllPaths
      [(⟨ItemType.story, 1⟩, [⟨ItemType.story, 2⟩]),
       (⟨ItemType.story, 2⟩, [⟨ItemType.story, 3⟩])]
      [(⟨ItemType.story, 1⟩, 5), (⟨ItemType.story, 2⟩, 8)]
      ⟨ItemType.story, 3⟩
      [⟨ItemType.story, 3⟩, ⟨ItemType.story, 2⟩, ⟨ItemType.story, 1⟩] =
      [([⟨ItemType.story, 3⟩], 0)] := by
    rw [findAllPaths_eq]; rfl
  have hC2 : findAllPaths
      [(⟨ItemType.story, 1⟩, [⟨ItemType.story, 2⟩]),
       (⟨ItemType.story, 2⟩, [⟨ItemType.story, 3⟩])]
      [(⟨ItemType.story, 1⟩, 5), (⟨ItemType.story, 2⟩, 8)]
      ⟨ItemType.story, 3⟩
      [⟨ItemType.story, 3⟩, ⟨ItemType.story, 2⟩] =
      [([⟨ItemType.story, 3⟩], 0)] := by
    rw [findAllPaths_eq]; rfl
  have hB1 : findAllPaths
      [(⟨ItemType.story, 1⟩, [⟨ItemType.story, 2⟩]),
       (⟨ItemType.story, 2⟩, [⟨ItemType.story, 3⟩])]
      [(⟨ItemType.story, 1⟩, 5), (⟨ItemType.story, 2⟩, 8)]
      ⟨ItemType.story, 2⟩
      [⟨ItemType.story, 2⟩, ⟨ItemType.story, 1⟩] =
      [([⟨ItemType.story, 2⟩, ⟨ItemType.story, 3⟩], 8)] := by
    rw [findAllPaths_eq]; norm_num [lookupGraph, hC1, durGet]
  have hB2 : findAllPaths
      [(⟨ItemType.story, 1⟩, [⟨ItemType.story, 2⟩]),
       (⟨ItemType.story, 2⟩, [⟨ItemType.story, 3⟩])]
      [(⟨ItemType.story, 1⟩, 5), (⟨ItemType.story, 2⟩, 8)]
      ⟨ItemType.story, 2⟩
      [⟨ItemType.story, 2⟩] =
      [([⟨ItemType.story, 2⟩, ⟨ItemType.story, 3⟩], 8)] := by
    rw [findAllPaths_eq]; norm_num [lookupGraph, hC2, durGet]
  have hA : findAllPaths
      [(⟨ItemType.story, 1⟩, [⟨ItemType.story, 2⟩]),
       (⟨ItemType.story, 2⟩, [⟨ItemType.story, 3⟩])]
      [(⟨ItemType.story, 1⟩, 5), (⟨ItemType.story, 2⟩, 8)]
      ⟨ItemType.story, 1⟩
      [⟨ItemType.story, 1⟩] =
      [([⟨ItemType.story, 1⟩, ⟨ItemType.story, 2⟩, ⟨ItemType.story, 3⟩], 13)] := by
    rw [findAllPaths_eq]; norm_num [lookupGraph, hB1, durGet]
  simp [getCriticalPath, chainDb, storyDep, addEdge, setDur, sourceDuration,
    storyFallbackDuration, truthyRat, durGet, List.find?]
  rw [hA, hB2]
  norm_num [maxByDuration, durGet]

/-- Evaluation of `get_critical_path` on the cycle A→B→A: the traversal
stops at the visited node, so the computation terminates and returns the
finite path [A, B] with total 16 (two default epic durations of 8). -/
theorem getCriticalPath_cycleDb :
    getCriticalPath cycleDb 1 =
      [⟨⟨ItemType.epic, 1⟩, 8, 16⟩, ⟨⟨ItemType.epic, 2⟩, 8, 16⟩] := by
  have hB : findAllPaths
      [(⟨ItemType.epic, 1⟩, [⟨ItemType.epic, 2⟩]),
       (⟨ItemType.epic, 2⟩, [⟨ItemType.epic, 1⟩])]
      [(⟨ItemType.epic, 1⟩, 8), (⟨ItemType.epic, 2⟩, 8)]
      ⟨ItemType.epic, 2⟩
      [⟨ItemType.epic, 2⟩, ⟨ItemType.epic, 1⟩] =
      [([⟨ItemType.epic, 2⟩], 8)] := by
    rw [findAllPaths_eq]; norm_num [lookupGraph, durGet]
  have hA2 : findAllPaths
      [(⟨ItemType.epic, 1⟩, [⟨ItemType.epic, 2⟩]),
       (⟨ItemType.epic, 2⟩, [⟨ItemType.epic, 1⟩])]
      [(⟨ItemType.epic, 1⟩, 8), (⟨ItemType.epic, 2⟩, 8)]
      ⟨ItemType.epic, 1⟩
      [⟨ItemType.epic, 1⟩, ⟨ItemType.epic, 2⟩] =
      [([⟨ItemType.epic, 1⟩], 8)] := by
    rw [findAllPaths_eq]; norm_num [lookupGraph, durGet]
  have hA : findAllPaths
      [(⟨ItemType.epic, 1⟩, [⟨ItemType.epic, 2⟩]),
       (⟨ItemType.epic, 2⟩, [⟨ItemType.epic, 1⟩])]
      [(⟨ItemType.epic, 1⟩, 8), (⟨ItemType.epic, 2⟩, 8)]
      ⟨ItemType.epic, 1⟩
      [⟨ItemType.epic, 1⟩] =
      [([⟨ItemType.epic, 1⟩, ⟨ItemType.epic, 2⟩], 16)] := by
    rw [findAllPaths_eq]; norm_num [lookupGraph, hB, durGet]
  have hB0 : findAllPaths
      [(⟨ItemType.epic, 1⟩, [⟨ItemType.epic, 2⟩]),
       (⟨ItemType.epic, 2⟩, [⟨ItemType.epic, 1⟩])]
      [(⟨ItemType.epic, 1⟩, 8), (⟨ItemType.epic, 2⟩, 8)]
      ⟨ItemType.epic, 2⟩
      [⟨ItemType.epic, 2⟩] =
      [([⟨ItemType.epic, 2⟩, ⟨ItemType.epic, 1⟩], 16)] := by
    rw [findAllPaths_eq]; norm_num [lookupGraph, hA2, durGet]
  simp [getCriticalPath, cycleDb, epicDep, addEdge, setDur, sourceDuration,
    storyFallbackDuration, truthyRat, durGet, List.find?]
  rw [hA, hB0]
  norm_num [maxByDuration, durGet]

/-! ## Lifecycle data model (`models/lifecycle.py`) -/

/-- Embeds `LifecyclePhase` (models/lifecycle.py:11). -/
inductive LifecyclePhase where
  | concept
  | define
  | plan
  | develop
  | launch
  | sustain
deriving DecidableEq, Repr

/-- Embeds `PhaseStatus` (models/lifecycle.py:21). -/
inductive PhaseStatus where
  | not_started
  | in_progress
  | pending_approval
  | approved
  | skipped
deriving DecidableEq, Repr

/-- Embeds `ServiceTaskStatus` (models/lifecycle.py:30). -/
inductive ServiceTaskStatus where
  | not_started
  | in_progress
  | blocked
  | completed
  | deferred
  | not_applicable
deriving DecidableEq, Repr

/-- Embeds `TaskSource` (models/lifecycle.py:40). -/
inductive TaskSource where
  | ai_generated
  | template
  | manual
deriving DecidableEq, Repr

/-- Embeds the `PHASE_ORDER` dict (models/lifecycle.py:48), as an
insertion-ordered association list (the initialization loop iterates
`PHASE_ORDER.items()` in this order). -/
def PHASE_ORDER : List (LifecyclePhase × Nat) :=
  [(LifecyclePhase.concept, 1), (LifecyclePhase.define, 2), (LifecyclePhase.plan, 3),
   (LifecyclePhase.develop, 4), (LifecyclePhase.launch, 5), (LifecyclePhase.sustain, 6)]

/-- The dict lookup `PHASE_ORDER[phase_enum]`. -/
def phaseOrderOf : LifecyclePhase → Nat
  | LifecyclePhase.concept => 1
  | LifecyclePhase.define => 2
  | LifecyclePhase.plan => 3
  | LifecyclePhase.develop => 4
  | LifecyclePhase.launch => 5
  | LifecyclePhase.sustain => 6

/-- Embeds the `OfferLifecyclePhase` row (models/lifecycle.py:58).
Date and datetime columns are abstract `Int` stamps. -/
structure OfferLifecyclePhase where
  id : Nat
  project_id : Nat
  phase : LifecyclePhase
  status : PhaseStatus := PhaseStatus.not_started
  order : Nat
  approval_required : Bool := true
  approved_by : Option String := none
  approved_at : Option Int := none
  approval_notes : Option String := none
  sequence_overridden : Bool := false
  override_reason : Option String := none
  overridden_by : Option String := none
  overridden_at : Option Int := none
  target_start_date : Option Int := none
  target_end_date : Option Int := none
  actual_start_date : Option Int := none
  actual_end_date : Option Int := none
deriving DecidableEq, Repr

/-- Embeds the `ServiceTask` row (models/lifecycle.py:107), restricted to
the columns the embedded operations touch. -/
structure ServiceTask where
  id : Nat := 0
  phase_id : Nat
  title : String
  description : Option String := none
  definition : Option String := none
  category : Option String := none
  subcategory : Option String := none
  status : ServiceTaskStatus := ServiceTaskStatus.not_started
  source : TaskSource := TaskSource.ai_generated
  target_start_date : Option Int := none
  target_complete_date : Option Int := none
  days_required : Option Int := none
  actual_start_date : Option Int := none
  actual_complete_date : Option Int := none
  team : Option String := none
  order : Nat := 0
  is_required : Bool := true
  ai_confidence : Option ℚ := none
  ai_reasoning : Option String := none
  completed_at : Option Int := none
deriving DecidableEq, Repr

/-- Error kinds surfaced by the lifecycle operations: `HTTPException 404`
(`NotFound`), the `ValueError` guard of `approve_phase`
(`InvalidTransition`), and the predecessor guard of `start_phase`
(`SequenceViolation`). -/
inductive LifecycleError where
  | notFound
  | invalidTransition
  | sequenceViolation
deriving DecidableEq, Repr

/-! ## Lifecycle initialization (`services/lifecycle_analyzer.py`) -/

/-- Embeds `initialize_lifecycle_phases` (services/lifecycle_analyzer.py:295):
raises when the project is absent, otherwise creates one `NOT_STARTED`
phase per entry of `PHASE_ORDER` (in its iteration order) and commits them
all at once.  `nextId` models the primary keys the store assigns. -/
def initializeLifecyclePhases (projects : List Nat) (projectId nextId : Nat) :
    Except LifecycleError (List OfferLifecyclePhase) :=
  if projectId ∈ projects then
    Except.ok (PHASE_ORDER.enum.map (fun pair =>
      { id := nextId + pair.1, project_id := projectId, phase := pair.2.1,
        status := PhaseStatus.not_started, order := pair.2.2,
        approval_required := true }))
  else Except.error LifecycleError.notFound

/-- One task entry of the tool-call payload consumed by
`_create_lifecycle_items` (the `tasks` items of the
`generate_offer_lifecycle_tasks` JSON schema). -/
structure TaskData where
  title : String
  definition : Option String := none
  category : Option String := none
  subcategory : Option String := none
  days_required : Option Int := none
  owner_team : Option String := none
  is_required : Option Bool := none
  confidence : Option ℚ := none
  reasoning : Option String := none
deriving DecidableEq, Repr

/-- One phase entry of the tool-call payload consumed by
`_create_lifecycle_items`. -/
structure PhaseData where
  phase : LifecyclePhase
  target_duration_days : Option Int := none
  tasks : List TaskData
deriving DecidableEq, Repr

/-- The `data` dict consumed by `_create_lifecycle_items`
(`data.get("phases", [])`). -/
structure LifecycleData where
  phases : List PhaseData
deriving DecidableEq, Repr

/-- The loop body of `_create_lifecycle_items`
(services/lifecycle_analyzer.py:246-291): walks `data["phases"]` carrying
`current_phase_start`, creating one phase per entry (duration defaulting
to 30 days) and one task per `tasks` entry (days defaulting to 5, all
starting at the phase start). -/
def createLifecycleItemsGo (projectId : Nat) :
    List PhaseData → Int → Nat → List OfferLifecyclePhase × List ServiceTask
  | [], _, _ => ([], [])
  | pd :: rest, current_phase_start, nextId =>
      let phase_duration : Int := pd.target_duration_days.getD 30
      let phase : OfferLifecyclePhase :=
        { id := nextId, project_id := projectId, phase := pd.phase,
          status := PhaseStatus.not_started, order := phaseOrderOf pd.phase,
          approval_required := true,
          target_start_date := some current_phase_start,
          target_end_date := some (current_phase_start + phase_duration) }
      let tasks := pd.tasks.enum.map (fun te =>
        let days_required : Int := te.2.days_required.getD 5
        { phase_id := nextId, title := te.2.title, definition := te.2.definition,
          description := te.2.definition, category := te.2.category,
          subcategory := te.2.subcategory, status := ServiceTaskStatus.not_started,
          source := TaskSource.ai_generated,
          target_start_date := some current_phase_start,
          target_complete_date := some (current_phase_start + days_required),
          days_required := some days_required, team := te.2.owner_team,
          order := te.1, is_required := te.2.is_required.getD true,
          ai_confidence := te.2.confidence, ai_reasoning := te.2.reasoning
          : ServiceTask })
      let restResult := createLifecycleItemsGo projectId rest
        (current_phase_start + phase_duration) (nextId + 1)
      (phase :: restResult.1, tasks ++ restResult.2)

/-- Embeds `_create_lifecycle_items` (services/lifecycle_analyzer.py:236):
creates one phase record per entry of the analysis payload together with
its tasks; the caller (`analyze_lifecycle`) commits them all in one
transaction. -/
def createLifecycleItems (projectId : Nat) (data : LifecycleData) (start_date : Int)
    (nextId : Nat) : List OfferLifecyclePhase × List ServiceTask :=
  createLifecycleItemsGo projectId data.phases start_date nextId

/-! ## Phase state machine (`services/lifecycle_analyzer.py`,
`api/lifecycle.py`) -/

/-- Lookup `db.query(OfferLifecyclePhase).filter(id == phase_id).first()`. -/
def findPhase (st : List OfferLifecyclePhase) (phaseId : Nat) : Option OfferLifecyclePhase :=
  st.find? (fun p => p.id = phaseId)

/-- Lookup of the phase of `projectId` with the given `order` (the
`project_id == .., order == ..` query of `approve_phase` / `start_phase`). -/
def findPhaseByOrder (st : List OfferLifecyclePhase) (projectId ord : Nat) :
    Option OfferLifecyclePhase :=
  st.find? (fun q => q.project_id = projectId ∧ q.order = ord)

/-- Embeds `approve_phase` (services/lifecycle_analyzer.py:317): requires
`PENDING_APPROVAL`, stamps approval metadata and `actual_end_date`, and in
the same commit auto-starts the next phase (same project, `order + 1`)
when it exists and is still `NOT_STARTED`.  The returned state carries
both row updates; an error leaves the state untouched. -/
def approvePhase (st : List OfferLifecyclePhase) (phaseId : Nat) (approved_by : String)
    (notes : Option String) (today now : Int) :
    Except LifecycleError (List OfferLifecyclePhase) :=
  match findPhase st phaseId with
  | none => Except.error LifecycleError.notFound
  | some phase =>
      if phase.status ≠ PhaseStatus.pending_approval then
        Except.error LifecycleError.invalidTransition
      else
        let phase1 := { phase with
          status := PhaseStatus.approved,
          approved_by := some approved_by, approved_at := some now,
          approval_notes := notes, actual_end_date := some today }
        match findPhaseByOrder st phase.project_id (phase.order + 1) with
        | some next_phase =>
            if next_phase.status = PhaseStatus.not_started then
              let next1 := { next_phase with
                status := PhaseStatus.in_progress,
                actual_start_date := some today }
              Except.ok (st.map (fun r =>
                if r.id = phase.id then phase1
                else if r.id = next_phase.id then next1 else r))
            else Except.ok (st.map (fun r => if r.id = phase.id then phase1 else r))
        | none => Except.ok (st.map (fun r => if r.id = phase.id then phase1 else r))

/-- Embeds `start_phase` (api/lifecycle.py:214): unless the phase has
`order == 1` or `sequence_overridden`, the phase of the same project with
`order - 1` must be `APPROVED` when it exists; then the phase is set to
`IN_PROGRESS` with `actual_start_date = today`, with no precondition on
the phase's own current status. -/
def startPhase (st : List OfferLifecyclePhase) (phaseId : Nat) (today : Int) :
    Except LifecycleError (List OfferLifecyclePhase) :=
  match findPhase st phaseId with
  | none => Except.error LifecycleError.notFound
  | some phase =>
      let guardFails : Bool :=
        if phase.order > 1 ∧ phase.sequence_overridden = false then
          match findPhaseByOrder st phase.project_id (phase.order - 1) with
          | some prev_phase => prev_phase.status ≠ PhaseStatus.approved
          | none => false
        else false
      if guardFails then Except.error LifecycleError.sequenceViolation
      else
        Except.ok (st.map (fun r =>
          if r.id = phase.id then
            { phase with
              status := PhaseStatus.in_progress,
              actual_start_date := some today }
          else r))

/-- Embeds `override_phase_sequence` (services/lifecycle_analyzer.py:353):
no precondition beyond existence; sets `sequence_overridden`, stamps the
override metadata, forces `IN_PROGRESS` and `actual_start_date = today`. -/
def overridePhaseSequence (st : List OfferLifecyclePhase) (phaseId : Nat)
    (overridden_by reason : String) (today now : Int) :
    Except LifecycleError (List OfferLifecyclePhase) :=
  match findPhase st phaseId with
  | none => Except.error LifecycleError.notFound
  | some phase =>
      Except.ok (st.map (fun r =>
        if r.id = phase.id then
          { phase with
            sequence_overridden := true, override_reason := some reason,
            overridden_by := some overridden_by, overridden_at := some now,
            status := PhaseStatus.in_progress, actual_start_date := some today }
        else r))

/-! ## Service-task status updates (`api/lifecycle.py`) -/

/-- The status-transition block of `update_task` (api/lifecycle.py:374-384):
entering `COMPLETED` from any other status stamps `completed_at` (and
`actual_complete_date` when unset); `NOT_STARTED → IN_PROGRESS` stamps
`actual_start_date` when unset; nothing is ever cleared. -/
def updateTaskStatus (task : ServiceTask) (new_status : ServiceTaskStatus)
    (today now : Int) : ServiceTask :=
  let task1 :=
    if new_status = ServiceTaskStatus.completed ∧ task.status ≠ ServiceTaskStatus.completed then
      { task with
        completed_at := some now,
        actual_complete_date :=
          if task.actual_complete_date = none then some today
          else task.actual_complete_date }
    else if new_status = ServiceTaskStatus.in_progress ∧
        task.status = ServiceTaskStatus.not_started then
      { task with
        actual_start_date :=
          if task.actual_start_date = none then some today else task.actual_start_date }
    else task
  { task1 with status := new_status }

/-- The per-task body of `bulk_update_task_status` (api/lifecycle.py:451-456):
like `update_task` but `actual_complete_date` and `actual_start_date` are
overwritten unconditionally on the respective transitions; again nothing
is cleared when a task leaves `COMPLETED`. -/
def bulkUpdateTaskStatus (task : ServiceTask) (new_status : ServiceTaskStatus)
    (today now : Int) : ServiceTask :=
  let task1 :=
    if new_status = ServiceTaskStatus.completed ∧ task.status ≠ ServiceTaskStatus.completed then
      { task with completed_at := some now, actual_complete_date := some today }
    else if new_status = ServiceTaskStatus.in_progress ∧
        task.status = ServiceTaskStatus.not_started then
      { task with actual_start_date := some today }
    else task
  { task1 with status := new_status }

/-! ## Story prioritization (`services/planning.py:485`,
`update_story_prioritization`) -/

/-- The `scores` dict passed to `update_story_prioritization`; absent keys
read as `None` via `scores.get(..)`. -/
structure ScoresDict where
  reach : Option Int := none
  impact : Option ℚ := none
  confidence : Option ℚ := none
  effort : Option ℚ := none
  business_value : Option Int := none
  time_criticality : Option Int := none
  risk_reduction : Option Int := none
  job_size : Option Int := none
  weekly_cost : Option ℚ := none
  urgency_profile : Option String := none
deriving DecidableEq, Repr

/-- The `all([...])` guard over the four stored RICE inputs (Python
truthiness: `None` and `0` both fail the guard). -/
def riceInputsTruthy (e : StoryEstimate) : Bool :=
  truthyInt e.rice_reach && truthyRat e.rice_impact &&
    truthyRat e.rice_confidence && truthyRat e.rice_effort

/-- The `all([...])` guard over the four stored WSJF inputs. -/
def wsjfInputsTruthy (e : StoryEstimate) : Bool :=
  truthyInt e.wsjf_business_value && truthyInt e.wsjf_time_criticality &&
    truthyInt e.wsjf_risk_reduction && truthyInt e.wsjf_job_size

/-- Embeds `update_story_prioritization` (services/planning.py:485): loads
(or creates) the story's estimate row, overwrites the selected model's
four inputs with the supplied values, and recomputes the model's score
only when all four stored inputs are truthy — otherwise the previously
stored score field is left as it was. -/
def updateStoryPrioritization (estimates : List StoryEstimate) (storyId : Nat)
    (model : String) (scores : ScoresDict) : StoryEstimate :=
  let estimate :=
    match estimates.find? (fun e => e.story_id = storyId) with
    | some e => e
    | none => { story_id := storyId }
  if model = "rice" then
    let e1 := { estimate with
      rice_reach := scores.reach, rice_impact := scores.impact,
      rice_confidence := scores.confidence, rice_effort := scores.effort }
    if riceInputsTruthy e1 then
      { e1 with
        rice_score := some (calculate_rice_score (e1.rice_reach.getD 0)
          (e1.rice_impact.getD 0) (e1.rice_confidence.getD 0) (e1.rice_effort.getD 0)) }
    else e1
  else if model = "wsjf" then
    let e1 := { estimate with
      wsjf_business_value := scores.business_value,
      wsjf_time_criticality := scores.time_criticality,
      wsjf_risk_reduction := scores.risk_reduction, wsjf_job_size := scores.job_size }
    if wsjfInputsTruthy e1 then
      { e1 with
        wsjf_score := some (calculate_wsjf_score (e1.wsjf_business_value.getD 0)
          (e1.wsjf_time_criticality.getD 0) (e1.wsjf_risk_reduction.getD 0)
          (e1.wsjf_job_size.getD 0)) }
    else e1
  else if model = "cod" then
    { estimate with
      cod_weekly := scores.weekly_cost,
      cod_urgency_profile := scores.urgency_profile }
  else estimate

/-! ## Dependency creation (`api/planning.py:194`, `create_dependency`) -/

/-- The `DependencyCreate` request schema (api/planning.py:30). -/
structure DependencyCreate where
  source_type : ItemType
  source_id : Nat
  target_type : ItemType
  target_id : Nat
  dependency_type : DependencyType := DependencyType.depends_on
  notes : Option String := none
deriving DecidableEq, Repr

/-- Error kinds of the dependency endpoints: the only failure
`create_dependency` can raise is the 404 for a missing project. -/
inductive PlanningApiError where
  | notFound
deriving DecidableEq, Repr

/-- Embeds `create_dependency` (api/planning.py:194): after the project
existence check it unconditionally constructs and commits the new edge —
there is no self-reference check and no duplicate check. -/
def createDependency (db : PlanningDb) (projectId : Nat) (data : DependencyCreate)
    (newId : Nat) : Except PlanningApiError (PlanningDb × Dependency) :=
  if projectId ∈ db.projects then
    let dep : Dependency :=
      { id := newId, project_id := projectId, source_type := data.source_type,
        source_id := data.source_id, target_type := data.target_type,
        target_id := data.target_id, dependency_type := data.dependency_type,
        status := DependencyStatus.pending, inferred := false, confidence := none,
        inference_reason := none, notes := data.notes }
    Except.ok ({ db with dependencies := db.dependencies ++ [dep] }, dep)
  else Except.error PlanningApiError.notFound

/-! ## Generic lemmas about the embedded store -/

/-- Updating rows through an id-preserving map commutes with the by-id
lookup. -/
theorem findPhase_map (st : List OfferLifecyclePhase)
    (f : OfferLifecyclePhase → OfferLifecyclePhase)
    (hf : ∀ p, (f p).id = p.id) (phaseId : Nat) :
    findPhase (st.map f) phaseId = Option.map f (findPhase st phaseId) := by
  unfold findPhase
  have hpred : ((fun p : OfferLifecyclePhase => decide (p.id = phaseId)) ∘ f) =
      (fun p : OfferLifecyclePhase => decide (p.id = phaseId)) := by
    funext p
    simp [Function.comp, hf]
  rw [List.find?_map, hpred]

/-- With primary-key uniqueness, the by-id lookup of a member returns that
member. -/
theorem findPhase_of_mem (st : List OfferLifecyclePhase)
    (hnodup : (st.map OfferLifecyclePhase.id).Nodup)
    (p : OfferLifecyclePhase) (hp : p ∈ st) : findPhase st p.id = some p := by
  induction st with
  | nil => cases hp
  | cons hd tl ih =>
      rw [List.map_cons, List.nodup_cons] at hnodup
      rcases List.mem_cons.mp hp with h1 | h2
      · subst h1
        simp [findPhase, List.find?_cons]
      · have hne : ¬(hd.id = p.id) := by
          intro he
          exact hnodup.1 (he ▸ List.mem_map.mpr ⟨p, h2, rfl⟩)
        have htl := ih hnodup.2 h2
        simpa [findPhase, List.find?_cons, hne] using htl

/-- A found phase is a member of the state and satisfies the searched id. -/
theorem findPhase_found {st : List OfferLifecyclePhase} {phaseId : Nat}
    {p : OfferLifecyclePhase} (h : findPhase st phaseId = some p) :
    p ∈ st ∧ p.id = phaseId := by
  refine ⟨List.mem_of_find?_eq_some h, ?_⟩
  have := List.find?_some h
  simpa using this

/-- A phase found by (project, order) is a member with those attributes. -/
theorem findPhaseByOrder_found {st : List OfferLifecyclePhase} {projectId ord : Nat}
    {q : OfferLifecyclePhase} (h : findPhaseByOrder st projectId ord = some q) :
    q ∈ st ∧ q.project_id = projectId ∧ q.order = ord := by
  refine ⟨List.mem_of_find?_eq_some h, ?_⟩
  have := List.find?_some h
  simpa using this

/-! ## Path enumeration invariants -/

/-- Adding an unvisited node of the graph to the visited set strictly
shrinks the set of reachable-but-unvisited nodes. -/
theorem card_sdiff_cons_lt (g : Graph) (visited : List NodeKey) (next : NodeKey)
    (hu : next ∈ nodeUniverse g) (hnv : next ∉ visited) :
    ((nodeUniverse g) \ (next :: visited).toFinset).card <
      ((nodeUniverse g) \ visited.toFinset).card := by
  apply Finset.card_lt_card
  constructor
  · intro x hx
    simp only [List.toFinset_cons, Finset.mem_sdiff, Finset.mem_insert] at hx ⊢
    exact ⟨hx.1, fun hx2 => hx.2 (Or.inr hx2)⟩
  · intro hsub
    have hmem : next ∈ nodeUniverse g \ visited.toFinset := by
      simp only [Finset.mem_sdiff, List.mem_toFinset]
      exact ⟨hu, hnv⟩
    have := hsub hmem
    simp [List.toFinset_cons] at this

/-- Properties of the base result `[([start], durations.get(start, 0))]`. -/
theorem base_pd_ok (d : DurMap) (start : NodeKey) (visited : List NodeKey) :
    ([start] : List NodeKey).Nodup ∧ (∀ x ∈ ([start] : List NodeKey), x = start ∨ x ∉ visited) ∧
    durGet d start = (([start] : List NodeKey).map (durGet d)).sum := by
  refine ⟨List.nodup_singleton _, ?_, by simp⟩
  intro x hx
  simp only [List.mem_singleton] at hx
  exact Or.inl hx

/-- DFS invariant of `find_all_paths`: provided the start node is on the
visited set (as the top-level calls arrange), every returned path is
duplicate-free, avoids the visited set except for its head, and its
recorded duration is exactly the sum of the `durations.get(·, 0)` values
of its nodes — so no node is ever counted twice in a path total. -/
theorem findAllPaths_invariant (g : Graph) (d : DurMap) :
    ∀ (n : Nat) (start : NodeKey) (visited : List NodeKey),
      ((nodeUniverse g) \ visited.toFinset).card ≤ n → start ∈ visited →
      ∀ pd ∈ findAllPaths g d start visited,
        pd.1.Nodup ∧ (∀ x ∈ pd.1, x = start ∨ x ∉ visited) ∧
        pd.2 = (pd.1.map (durGet d)).sum := by
  intro n
  induction n with
  | zero =>
      intro start visited hcard hstart pd hpd
      rw [findAllPaths_eq] at hpd
      rcases hlk : lookupGraph g start with _ | succs <;> rw [hlk] at hpd
      · simp only [List.mem_singleton] at hpd
        subst hpd
        exact base_pd_ok d start visited
      · dsimp only at hpd
        split_ifs at hpd
        · simp only [List.mem_singleton] at hpd
          subst hpd
          exact base_pd_ok d start visited
        · simp only [List.mem_singleton] at hpd
          subst hpd
          exact base_pd_ok d start visited
        · exfalso
          rcases List.mem_flatten.mp hpd with ⟨l, hl, hpdl⟩
          rcases List.mem_map.mp hl with ⟨next, hnext, rfl⟩
          by_cases hv : next ∈ visited
          · rw [if_pos hv] at hpdl
            cases hpdl
          · have hu := mem_nodeUniverse_of_lookup hlk hnext
            have h1 : 0 < ((nodeUniverse g) \ visited.toFinset).card := by
              apply Finset.card_pos.mpr
              refine ⟨next, ?_⟩
              simp only [Finset.mem_sdiff, List.mem_toFinset]
              exact ⟨hu, hv⟩
            omega
  | succ n ih =>
      intro start visited hcard hstart pd hpd
      rw [findAllPaths_eq] at hpd
      rcases hlk : lookupGraph g start with _ | succs <;> rw [hlk] at hpd
      · simp only [List.mem_singleton] at hpd
        subst hpd
        exact base_pd_ok d start visited
      · dsimp only at hpd
        split_ifs at hpd
        · simp only [List.mem_singleton] at hpd
          subst hpd
          exact base_pd_ok d start visited
        · simp only [List.mem_singleton] at hpd
          subst hpd
          exact base_pd_ok d start visited
        · rcases List.mem_flatten.mp hpd with ⟨l, hl, hpdl⟩
          rcases List.mem_map.mp hl with ⟨next, hnext, rfl⟩
          by_cases hv : next ∈ visited
          · rw [if_pos hv] at hpdl
            cases hpdl
          · rw [if_neg hv] at hpdl
            rcases List.mem_map.mp hpdl with ⟨q, hq, rfl⟩
            have hu := mem_nodeUniverse_of_lookup hlk hnext
            have hcard2 : ((nodeUniverse g) \ (next :: visited).toFinset).card ≤ n := by
              have := card_sdiff_cons_lt g visited next hu hv
              omega
            obtain ⟨hnd, hmem, hsum⟩ :=
              ih next (next :: visited) hcard2 (List.mem_cons_self _ _) q hq
            have hstartq : start ∉ q.1 := by
              intro hx
              rcases hmem start hx with h1 | h1
              · exact hv (h1 ▸ hstart)
              · exact h1 (List.mem_cons_of_mem _ hstart)
            refine ⟨List.nodup_cons.mpr ⟨hstartq, hnd⟩, ?_, ?_⟩
            · intro x hx
              rcases List.mem_cons.mp hx with h1 | h1
              · exact Or.inl h1
              · rcases hmem x h1 with h2 | h2
                · exact Or.inr (h2 ▸ hv)
                · exact Or.inr (fun hxv => h2 (List.mem_cons_of_mem _ hxv))
            · simp only [List.map_cons, List.sum_cons]
              rw [hsum]


/-- Distinct rows of a primary-key-unique state have distinct ids. -/
theorem phase_id_inj {st : List OfferLifecyclePhase}
    (hnodup : (st.map OfferLifecyclePhase.id).Nodup) {p q : OfferLifecyclePhase}
    (hp : p ∈ st) (hq : q ∈ st) (h : p.id = q.id) : p = q :=
  List.inj_on_of_nodup_map hnodup hp hq h

/-! ## Claim theorems -/

/-- C9: for positive divisors both scoring functions compute their defining
formula, and a non-positive `effort` / `job_size` short-circuits to 0, so
neither ever divides by a non-positive number. -/
theorem scoring_total_functions (reach : Int) (impact confidence effort : ℚ)
    (business_value time_criticality risk_reduction job_size : Int) :
    (0 < effort → calculate_rice_score reach impact confidence effort =
      ((reach : ℚ) * impact * confidence) / effort) ∧
    (effort ≤ 0 → calculate_rice_score reach impact confidence effort = 0) ∧
    (0 < job_size → calculate_wsjf_score business_value time_criticality
      risk_reduction job_size =
      ((business_value + time_criticality + risk_reduction : Int) : ℚ) / (job_size : ℚ)) ∧
    (job_size ≤ 0 → calculate_wsjf_score business_value time_criticality
      risk_reduction job_size = 0) := by
  refine ⟨fun h => ?_, fun h => ?_, fun h => ?_, fun h => ?_⟩
  · rw [calculate_rice_score, if_neg (not_le.mpr h)]
  · rw [calculate_rice_score, if_pos h]
  · rw [calculate_wsjf_score, if_neg (not_le.mpr h)]
  · rw [calculate_wsjf_score, if_pos h]

/-- Witness for C9 at concrete inputs: RICE(10, 2, 1/2, 4) = 10·2·(1/2)/4,
RICE with effort 0 is 0, WSJF(3, 5, 8, 2) = 16/2, WSJF with job size 0
is 0. -/
theorem scoring_total_functions_witness :
    calculate_rice_score 10 2 (1/2) 4 = ((10 : Int) : ℚ) * 2 * (1/2) / 4 ∧
    calculate_rice_score 10 2 (1/2) 0 = 0 ∧
    calculate_wsjf_score 3 5 8 2 = (((3 : Int) + 5 + 8 : Int) : ℚ) / ((2 : Int) : ℚ) ∧
    calculate_wsjf_score 3 5 8 0 = 0 :=
  ⟨(scoring_total_functions 10 2 (1/2) 4 3 5 8 2).1 (by norm_num),
   (scoring_total_functions 10 2 (1/2) 0 3 5 8 2).2.1 (by norm_num),
   (scoring_total_functions 10 2 (1/2) 4 3 5 8 2).2.2.1 (by norm_num),
   (scoring_total_functions 10 2 (1/2) 4 3 5 8 0).2.2.2 (by norm_num)⟩

/-- A one-edge project used to probe `create_dependency`: project 1 already
holds the story edge 1→2. -/
def depDb : PlanningDb :=
  { projects := [1], dependencies := [storyDep 1 1 2], estimates := [], stories := [] }

/-- The exact duplicate of the existing edge (same source, target and
kind). -/
def dupRequest : DependencyCreate :=
  { source_type := ItemType.story, source_id := 1,
    target_type := ItemType.story, target_id := 2,
    dependency_type := DependencyType.depends_on, notes := none }

/-- A self-referencing edge request (source equals target). -/
def selfRequest : DependencyCreate :=
  { source_type := ItemType.story, source_id := 1,
    target_type := ItemType.story, target_id := 1,
    dependency_type := DependencyType.depends_on, notes := none }

/-- C2 (counterexample): `create_dependency` accepts both the exact
duplicate of an existing (source, target, kind) edge and a self-referencing
edge: each call returns ok and stores a second / a self-looping
`Dependency` record instead of failing with DuplicateEdge / SelfReference. -/
theorem createDependency_counterexample :
    createDependency depDb 1 dupRequest 2 =
      Except.ok ({ depDb with dependencies := [storyDep 1 1 2, storyDep 2 1 2] },
        storyDep 2 1 2) ∧
    createDependency depDb 1 selfRequest 2 =
      Except.ok ({ depDb with dependencies := [storyDep 1 1 2, storyDep 2 1 1] },
        storyDep 2 1 1) := by
  constructor <;> rfl

/-- C2 (amended): after the project-existence check, `create_dependency`
performs no validation at all — any request, including a self-referencing
edge and an exact duplicate of an existing (source, target, kind) triple,
succeeds and appends exactly one new `Dependency` record carrying the
request's fields. -/
theorem createDependency_no_validation (db : PlanningDb) (projectId newId : Nat)
    (data : DependencyCreate) (hproj : projectId ∈ db.projects) :
    ∃ dep : Dependency,
      createDependency db projectId data newId =
        Except.ok ({ db with dependencies := db.dependencies ++ [dep] }, dep) ∧
      dep.id = newId ∧ dep.project_id = projectId ∧
      dep.source_type = data.source_type ∧ dep.source_id = data.source_id ∧
      dep.target_type = data.target_type ∧ dep.target_id = data.target_id ∧
      dep.dependency_type = data.dependency_type ∧
      dep.status = DependencyStatus.pending := by
  refine
    ⟨{ id := newId, project_id := projectId, source_type := data.source_type,
        source_id := data.source_id, target_type := data.target_type,
        target_id := data.target_id, dependency_type := data.dependency_type,
        status := DependencyStatus.pending, inferred := false, confidence := none,
        inference_reason := none, notes := data.notes },
      ?_, rfl, rfl, rfl, rfl, rfl, rfl, rfl, rfl⟩
  rw [createDependency, if_pos hproj]

/-- Witness for C2 at the concrete self-edge request: the create succeeds
on `depDb`. -/
theorem createDependency_no_validation_witness :
    (1 : Nat) ∈ depDb.projects ∧
    ∃ dep : Dependency,
      createDependency depDb 1 selfRequest 2 =
        Except.ok ({ depDb with dependencies := depDb.dependencies ++ [dep] }, dep) ∧
      dep.id = 2 ∧ dep.project_id = 1 ∧
      dep.source_type = selfRequest.source_type ∧ dep.source_id = selfRequest.source_id ∧
      dep.target_type = selfRequest.target_type ∧ dep.target_id = selfRequest.target_id ∧
      dep.dependency_type = selfRequest.dependency_type ∧
      dep.status = DependencyStatus.pending :=
  ⟨by decide, createDependency_no_validation depDb 1 2 selfRequest (by decide)⟩

/-- A completed service task with a recorded completion timestamp. -/
def doneTask : ServiceTask :=
  { phase_id := 1, title := "launch readiness review",
    status := ServiceTaskStatus.completed, completed_at := some 100 }

/-- C7 (counterexample): re-opening a completed task (moving it from
`COMPLETED` to `IN_PROGRESS`) leaves `completed_at` at its old value in
both the single and the bulk update paths — it is never cleared back to
null as the claim requires. -/
theorem taskReopen_counterexample :
    (updateTaskStatus doneTask ServiceTaskStatus.in_progress 5 6).completed_at = some 100 ∧
    (bulkUpdateTaskStatus doneTask ServiceTaskStatus.in_progress 5 6).completed_at = some 100 ∧
    (updateTaskStatus doneTask ServiceTaskStatus.in_progress 5 6).status =
      ServiceTaskStatus.in_progress ∧
    some (100 : Int) ≠ none := by
  refine ⟨rfl, rfl, rfl, by simp⟩

/-- C7 (amended): a status update entering `COMPLETED` from any other
status stamps `completed_at = now` (in `update_task` and in
`bulk_update_task_status` alike); any update whose new status is not
`COMPLETED` — including re-opening a completed task — leaves `completed_at`
unchanged, and the stored status always becomes the requested one. -/
theorem taskCompletedAt_spec (task : ServiceTask) (new_status : ServiceTaskStatus)
    (today now : Int) :
    (new_status = ServiceTaskStatus.completed → task.status ≠ ServiceTaskStatus.completed →
      (updateTaskStatus task new_status today now).completed_at = some now ∧
      (bulkUpdateTaskStatus task new_status today now).completed_at = some now) ∧
    (new_status ≠ ServiceTaskStatus.completed →
      (updateTaskStatus task new_status today now).completed_at = task.completed_at ∧
      (bulkUpdateTaskStatus task new_status today now).completed_at = task.completed_at) ∧
    (updateTaskStatus task new_status today now).status = new_status ∧
    (bulkUpdateTaskStatus task new_status today now).status = new_status := by
  refine ⟨fun h1 h2 => ?_, fun h1 => ?_, ?_, ?_⟩
  · constructor <;> simp [updateTaskStatus, bulkUpdateTaskStatus, h1, h2]
  · constructor
    · simp only [updateTaskStatus, h1, false_and, if_false]
      split_ifs <;> rfl
    · simp only [bulkUpdateTaskStatus, h1, false_and, if_false]
      split_ifs <;> rfl
  · rfl
  · rfl

/-- Witness for C7: completing a fresh task stamps `completed_at = 6`, and
re-opening `doneTask` keeps `completed_at = some 100`. -/
theorem taskCompletedAt_spec_witness :
    ((updateTaskStatus { doneTask with status := ServiceTaskStatus.in_progress }
        ServiceTaskStatus.completed 5 6).completed_at = some 6 ∧
      (bulkUpdateTaskStatus { doneTask with status := ServiceTaskStatus.in_progress }
        ServiceTaskStatus.completed 5 6).completed_at = some 6) ∧
    ((updateTaskStatus doneTask ServiceTaskStatus.in_progress 5 6).completed_at =
        doneTask.completed_at ∧
      (bulkUpdateTaskStatus doneTask ServiceTaskStatus.in_progress 5 6).completed_at =
        doneTask.completed_at) :=
  ⟨(taskCompletedAt_spec { doneTask with status := ServiceTaskStatus.in_progress }
      ServiceTaskStatus.completed 5 6).1 rfl (by decide),
   (taskCompletedAt_spec doneTask ServiceTaskStatus.in_progress 5 6).2.1 (by decide)⟩


/-- C1 (counterexample): on the 3-node chain A→B→C with story p50 durations
5, 8, 13 and no resolved edge, the computed total is 13, not the claimed 26,
and node C — which appears only as an edge target — is reported with
duration 0, not 13: the duration rule is never applied to target-only
nodes. -/
theorem criticalPath_chain_counterexample :
    getCriticalPath chainDb 1 =
      [⟨⟨ItemType.story, 1⟩, 5, 13⟩, ⟨⟨ItemType.story, 2⟩, 8, 13⟩,
        ⟨⟨ItemType.story, 3⟩, 0, 13⟩] ∧
    (13 : ℚ) ≠ 26 ∧ (0 : ℚ) ≠ 13 :=
  ⟨getCriticalPath_chainDb, by norm_num, by norm_num⟩

/-- C1 (amended): on the 3-node chain A→B→C the critical-path computation
returns the path [A, B, C]; the per-node duration rule (Story p50 /
raw hours / default 8) is applied only to nodes occurring as the source of
some non-resolved edge, so A and B carry 5 and 8 while the target-only
node C contributes `durations.get(C, 0) = 0`, for a path total of 13. -/
theorem criticalPath_chain_amended :
    getCriticalPath chainDb 1 =
      [⟨⟨ItemType.story, 1⟩, 5, 13⟩, ⟨⟨ItemType.story, 2⟩, 8, 13⟩,
        ⟨⟨ItemType.story, 3⟩, 0, 13⟩] :=
  getCriticalPath_chainDb

/-- C8: path enumeration never revisits a node already on the current DFS
path, so every returned path is duplicate-free and its recorded duration
counts each node exactly once (it is the sum of the per-node durations);
and on the concrete cycle A→B→A the whole critical-path computation
produces the finite, deterministic result [A, B] with total 16. -/
theorem criticalPath_cycle_safe :
    (∀ (g : Graph) (d : DurMap) (start : NodeKey) (visited : List NodeKey)
      (pd : List NodeKey × ℚ), start ∈ visited → pd ∈ findAllPaths g d start visited →
      pd.1.Nodup ∧ pd.2 = (pd.1.map (durGet d)).sum) ∧
    getCriticalPath cycleDb 1 =
      [⟨⟨ItemType.epic, 1⟩, 8, 16⟩, ⟨⟨ItemType.epic, 2⟩, 8, 16⟩] := by
  constructor
  · intro g d start visited pd hstart hpd
    obtain ⟨h1, _, h3⟩ := findAllPaths_invariant g d
      ((nodeUniverse g \ visited.toFinset).card) start visited le_rfl hstart pd hpd
    exact ⟨h1, h3⟩
  · exact getCriticalPath_cycleDb

/-- Witness for C8: a concrete run of `findAllPaths` (empty graph, start
node on the visited set) yields the path [(epic, 0)] whose nodes are
distinct and whose duration 0 is the sum of its per-node durations. -/
theorem criticalPath_cycle_safe_witness :
    ([⟨ItemType.epic, 0⟩] : List NodeKey).Nodup ∧
    (0 : ℚ) = (([⟨ItemType.epic, 0⟩] : List NodeKey).map (durGet [])).sum := by
  have h0 : findAllPaths [] [] ⟨ItemType.epic, 0⟩ [⟨ItemType.epic, 0⟩] =
      [([⟨ItemType.epic, 0⟩], 0)] := by
    rw [findAllPaths_eq]
    rfl
  exact criticalPath_cycle_safe.1 [] [] ⟨ItemType.epic, 0⟩ [⟨ItemType.epic, 0⟩]
    ([⟨ItemType.epic, 0⟩], 0) (List.mem_singleton.mpr rfl)
    (by rw [h0]; exact List.mem_singleton.mpr rfl)


/-- Per-entry shape of `_create_lifecycle_items`: one phase record per
payload entry, carrying the entry's phase name. -/
theorem createLifecycleItemsGo_shape (projectId : Nat) (pds : List PhaseData) :
    ∀ (cur : Int) (nid : Nat),
      (createLifecycleItemsGo projectId pds cur nid).1.length = pds.length ∧
      (createLifecycleItemsGo projectId pds cur nid).1.map OfferLifecyclePhase.phase =
        pds.map PhaseData.phase := by
  induction pds with
  | nil => intro cur nid; exact ⟨rfl, rfl⟩
  | cons pd rest ih =>
      intro cur nid
      simp only [createLifecycleItemsGo, List.length_cons, List.map_cons]
      exact ⟨by rw [(ih _ _).1], by rw [(ih _ _).2]⟩

/-- An analysis payload containing a single phase entry. -/
def oneConceptData : LifecycleData :=
  { phases := [{ phase := LifecyclePhase.concept, tasks := [] }] }

/-- C5 (counterexample): the analysis-driven creation path
(`_create_lifecycle_items`, reached through `analyze_lifecycle`) creates
one phase record per payload entry — a payload with a single `concept`
entry yields exactly one phase, not six. -/
theorem lifecycleInit_partial_counterexample :
    (createLifecycleItems 1 oneConceptData 0 1).1.length = 1 ∧ (1 : Nat) ≠ 6 :=
  ⟨rfl, by decide⟩

/-- C5 (amended): `initialize_lifecycle_phases` does create exactly six
phases in one commit — one per canonical name in order, with `order`
fixed 1..6 — and fails with NotFound for a missing project; but the
analysis-driven path `_create_lifecycle_items` creates exactly one phase
per entry of the supplied payload, which need not be six. -/
theorem lifecycleInitialization_spec (projects : List Nat) (projectId nextId : Nat)
    (data : LifecycleData) (start_date : Int) :
    (projectId ∈ projects →
      ∃ phases, initializeLifecyclePhases projects projectId nextId = Except.ok phases ∧
        phases.length = 6 ∧
        phases.map OfferLifecyclePhase.phase = PHASE_ORDER.map Prod.fst ∧
        phases.map OfferLifecyclePhase.order = [1, 2, 3, 4, 5, 6] ∧
        ∀ p ∈ phases, p.project_id = projectId ∧ p.status = PhaseStatus.not_started) ∧
    (projectId ∉ projects →
      initializeLifecyclePhases projects projectId nextId =
        Except.error LifecycleError.notFound) ∧
    (createLifecycleItems projectId data start_date nextId).1.length =
      data.phases.length ∧
    (createLifecycleItems projectId data start_date nextId).1.map
      OfferLifecyclePhase.phase = data.phases.map PhaseData.phase := by
  refine ⟨fun hproj => ?_, fun hproj => ?_, ?_, ?_⟩
  · refine ⟨PHASE_ORDER.enum.map (fun pair =>
      { id := nextId + pair.1, project_id := projectId, phase := pair.2.1,
        status := PhaseStatus.not_started, order := pair.2.2,
        approval_required := true }), ?_, ?_, ?_, ?_, ?_⟩
    · rw [initializeLifecyclePhases, if_pos hproj]
    · rfl
    · rfl
    · rfl
    · intro p hp
      fin_cases hp <;> exact ⟨rfl, rfl⟩
  · rw [initializeLifecyclePhases, if_neg hproj]
  · exact (createLifecycleItemsGo_shape projectId data.phases start_date nextId).1
  · exact (createLifecycleItemsGo_shape projectId data.phases start_date nextId).2

/-- Witness for C5: initializing project 1 (present in the store) yields
the six canonical phases. -/
theorem lifecycleInitialization_spec_witness :
    ∃ phases, initializeLifecyclePhases [1] 1 10 = Except.ok phases ∧
      phases.length = 6 ∧
      phases.map OfferLifecyclePhase.phase = PHASE_ORDER.map Prod.fst ∧
      phases.map OfferLifecyclePhase.order = [1, 2, 3, 4, 5, 6] ∧
      ∀ p ∈ phases, p.project_id = 1 ∧ p.status = PhaseStatus.not_started :=
  (lifecycleInitialization_spec [1] 1 10 oneConceptData 0).1 (by decide)

/-- An estimate row whose four RICE inputs are populated and whose score
was computed from them (3 · 3 · 1 / 1 = 9). -/
def staleEstimate : StoryEstimate :=
  { story_id := 7, rice_reach := some 3, rice_impact := some 3,
    rice_confidence := some 1, rice_effort := some 1, rice_score := some 9 }

/-- C6 (counterexample): updating story 7's RICE inputs with `reach`
missing nulls the stored `rice_reach` but leaves `rice_score` at its old
value 9 — the score is stale, not null as the claim requires. -/
theorem storyPrioritization_stale_counterexample :
    (updateStoryPrioritization [staleEstimate] 7 "rice"
      { impact := some 3, confidence := some 1, effort := some 1 }).rice_score = some 9 ∧
    (updateStoryPrioritization [staleEstimate] 7 "rice"
      { impact := some 3, confidence := some 1, effort := some 1 }).rice_reach = none ∧
    some (9 : ℚ) ≠ (none : Option ℚ) :=
  ⟨rfl, rfl, by simp⟩

/-- C6 (amended): `update_story_prioritization` always overwrites the
selected model's four inputs with the supplied values; it recomputes the
model's score exactly when all four stored inputs are present and non-zero
(Python truthiness), and otherwise leaves the previously stored score
field untouched — possibly stale — rather than resetting it to null. -/
theorem storyPrioritization_score_spec (estimates : List StoryEstimate)
    (storyId : Nat) (scores : ScoresDict) (e0 : StoryEstimate)
    (hfind : estimates.find? (fun e => e.story_id = storyId) = some e0) :
    (riceInputsTruthy { e0 with
        rice_reach := scores.reach, rice_impact := scores.impact,
        rice_confidence := scores.confidence, rice_effort := scores.effort } = true →
      (updateStoryPrioritization estimates storyId "rice" scores).rice_score =
        some (calculate_rice_score (scores.reach.getD 0) (scores.impact.getD 0)
          (scores.confidence.getD 0) (scores.effort.getD 0))) ∧
    (riceInputsTruthy { e0 with
        rice_reach := scores.reach, rice_impact := scores.impact,
        rice_confidence := scores.confidence, rice_effort := scores.effort } = false →
      (updateStoryPrioritization estimates storyId "rice" scores).rice_score =
        e0.rice_score) ∧
    (updateStoryPrioritization estimates storyId "rice" scores).rice_reach =
      scores.reach ∧
    (wsjfInputsTruthy { e0 with
        wsjf_business_value := scores.business_value,
        wsjf_time_criticality := scores.time_criticality,
        wsjf_risk_reduction := scores.risk_reduction,
        wsjf_job_size := scores.job_size } = true →
      (updateStoryPrioritization estimates storyId "wsjf" scores).wsjf_score =
        some (calculate_wsjf_score (scores.business_value.getD 0)
          (scores.time_criticality.getD 0) (scores.risk_reduction.getD 0)
          (scores.job_size.getD 0))) ∧
    (wsjfInputsTruthy { e0 with
        wsjf_business_value := scores.business_value,
        wsjf_time_criticality := scores.time_criticality,
        wsjf_risk_reduction := scores.risk_reduction,
        wsjf_job_size := scores.job_size } = false →
      (updateStoryPrioritization estimates storyId "wsjf" scores).wsjf_score =
        e0.wsjf_score) := by
  refine ⟨fun h => ?_, fun h => ?_, ?_, fun h => ?_, fun h => ?_⟩
  · simp only [updateStoryPrioritization, hfind, if_true, if_false]
    rw [if_pos h]
  · simp only [updateStoryPrioritization, hfind, if_true, if_false]
    rw [if_neg (by simp [h])]
  · simp only [updateStoryPrioritization, hfind, if_true, if_false]
    split_ifs <;> rfl
  · simp only [updateStoryPrioritization, hfind, if_true, if_false]
    rw [if_neg (show ¬("wsjf" = "rice") by decide), if_pos h]
  · simp only [updateStoryPrioritization, hfind, if_true, if_false]
    rw [if_neg (show ¬("wsjf" = "rice") by decide), if_neg (by simp [h])]

/-- Witness for C6: with all four RICE inputs supplied (2, 3, 1, 2) the
stored score is recomputed to 3; with `reach` missing the stale score 9 of
`staleEstimate` survives. -/
theorem storyPrioritization_score_spec_witness :
    (updateStoryPrioritization [staleEstimate] 7 "rice"
      { reach := some 2, impact := some 3, confidence := some 1,
        effort := some 2 }).rice_score =
      some (calculate_rice_score ((some (2 : Int)).getD 0) ((some (3 : ℚ)).getD 0)
        ((some (1 : ℚ)).getD 0) ((some (2 : ℚ)).getD 0)) ∧
    (updateStoryPrioritization [staleEstimate] 7 "rice"
      { impact := some 3, confidence := some 1, effort := some 1 }).rice_score =
      staleEstimate.rice_score :=
  ⟨(storyPrioritization_score_spec [staleEstimate] 7
      { reach := some 2, impact := some 3, confidence := some 1, effort := some 2 }
      staleEstimate rfl).1 (by decide),
   (storyPrioritization_score_spec [staleEstimate] 7
      { impact := some 3, confidence := some 1, effort := some 1 }
      staleEstimate rfl).2.1 (by decide)⟩


/-- C3: `approve_phase` succeeds only from `PENDING_APPROVAL` — any other
current status fails with InvalidTransition and returns no new state — and
on success the one returned state stamps the phase with `approved_by`,
`approved_at`, `approval_notes` and `actual_end_date`, auto-starts the
next phase (same project, order + 1) when it exists and is still
`NOT_STARTED` with `actual_start_date = today`, and touches no other row:
both writes live in the single committed state. -/
theorem approvePhase_spec (st : List OfferLifecyclePhase) (phaseId : Nat)
    (user : String) (notes : Option String) (today now : Int)
    (phase : OfferLifecyclePhase)
    (hfind : findPhase st phaseId = some phase)
    (hnodup : (st.map OfferLifecyclePhase.id).Nodup) :
    (phase.status ≠ PhaseStatus.pending_approval →
      approvePhase st phaseId user notes today now =
        Except.error LifecycleError.invalidTransition) ∧
    (phase.status = PhaseStatus.pending_approval →
      ∃ st2, approvePhase st phaseId user notes today now = Except.ok st2 ∧
        findPhase st2 phaseId = some { phase with
          status := PhaseStatus.approved, approved_by := some user,
          approved_at := some now, approval_notes := notes,
          actual_end_date := some today } ∧
        (∀ next_phase,
          findPhaseByOrder st phase.project_id (phase.order + 1) = some next_phase →
          next_phase.status = PhaseStatus.not_started →
          findPhase st2 next_phase.id = some { next_phase with
            status := PhaseStatus.in_progress, actual_start_date := some today }) ∧
        (∀ q ∈ st, q.id ≠ phaseId →
          (∀ next_phase,
            findPhaseByOrder st phase.project_id (phase.order + 1) = some next_phase →
            next_phase.status = PhaseStatus.not_started → q.id ≠ next_phase.id) →
          findPhase st2 q.id = some q)) := by
  obtain ⟨hpmem, hpid⟩ := findPhase_found hfind
  constructor
  · intro hs
    unfold approvePhase
    rw [hfind]
    dsimp only
    rw [if_pos hs]
  · intro hs
    unfold approvePhase
    rw [hfind]
    dsimp only
    rw [if_neg (fun hc => hc hs)]
    rcases hnext : findPhaseByOrder st phase.project_id (phase.order + 1) with _ | next0
    · refine ⟨_, rfl, ?_, ?_, ?_⟩
      · rw [findPhase_map st _ (fun p => ?_) phaseId, hfind]
        · simp
        · by_cases hid : p.id = phase.id <;> simp [hid]
      · intro next_phase hn
        simp at hn
      · intro q hq hqid _
        have hqne : ¬(q.id = phase.id) := fun hc => hqid (hc.trans hpid)
        rw [findPhase_map st _ (fun p => ?_) q.id, findPhase_of_mem st hnodup q hq]
        · simp [hqne]
        · by_cases hid : p.id = phase.id <;> simp [hid]
    · obtain ⟨hnmem, hnpid, hnord⟩ := findPhaseByOrder_found hnext
      have hneid : ¬(next0.id = phase.id) := by
        intro he
        have heq : next0 = phase := phase_id_inj hnodup hnmem hpmem he
        rw [heq] at hnord
        omega
      dsimp only
      by_cases hns : next0.status = PhaseStatus.not_started
      · rw [if_pos hns]
        refine ⟨_, rfl, ?_, ?_, ?_⟩
        · rw [findPhase_map st _ (fun p => ?_) phaseId, hfind]
          · simp
          · by_cases hid : p.id = phase.id
            · simp [hid]
            · by_cases hid2 : p.id = next0.id <;> simp [hid, hid2, hneid]
        · intro next_phase hn hnsts
          injection hn with hn
          subst hn
          rw [findPhase_map st _ (fun p => ?_) next0.id,
            findPhase_of_mem st hnodup next0 hnmem]
          · simp [hneid]
          · by_cases hid : p.id = phase.id
            · simp [hid]
            · by_cases hid2 : p.id = next0.id <;> simp [hid, hid2, hneid]
        · intro q hq hqid hqnext
          have hqne : ¬(q.id = phase.id) := fun hc => hqid (hc.trans hpid)
          have hqne2 : ¬(q.id = next0.id) := hqnext next0 rfl hns
          rw [findPhase_map st _ (fun p => ?_) q.id, findPhase_of_mem st hnodup q hq]
          · simp [hqne, hqne2]
          · by_cases hid : p.id = phase.id
            · simp [hid]
            · by_cases hid2 : p.id = next0.id <;> simp [hid, hid2, hneid]
      · rw [if_neg hns]
        refine ⟨_, rfl, ?_, ?_, ?_⟩
        · rw [findPhase_map st _ (fun p => ?_) phaseId, hfind]
          · simp
          · by_cases hid : p.id = phase.id <;> simp [hid]
        · intro next_phase hn hnsts
          injection hn with hn
          subst hn
          exact absurd hnsts hns
        · intro q hq hqid _
          have hqne : ¬(q.id = phase.id) := fun hc => hqid (hc.trans hpid)
          rw [findPhase_map st _ (fun p => ?_) q.id, findPhase_of_mem st hnodup q hq]
          · simp [hqne]
          · by_cases hid : p.id = phase.id <;> simp [hid]


/-- Fixture: phase 1 of project 1 awaiting approval. -/
def ph1W : OfferLifecyclePhase :=
  { id := 1, project_id := 1, phase := LifecyclePhase.concept,
    status := PhaseStatus.pending_approval, order := 1 }

/-- Fixture: phase 2 of project 1, not yet started. -/
def ph2W : OfferLifecyclePhase :=
  { id := 2, project_id := 1, phase := LifecyclePhase.define,
    status := PhaseStatus.not_started, order := 2 }

/-- Witness for C3: approving phase 1 of the two-phase fixture stamps the
approval on phase 1 and auto-starts phase 2 with `actual_start_date = 100`
in the same returned state. -/
theorem approvePhase_spec_witness :
    ∃ st2, approvePhase [ph1W, ph2W] 1 "pm" none 100 200 = Except.ok st2 ∧
      findPhase st2 1 = some { ph1W with
        status := PhaseStatus.approved, approved_by := some "pm",
        approved_at := some 200, approval_notes := none,
        actual_end_date := some 100 } ∧
      findPhase st2 2 = some { ph2W with
        status := PhaseStatus.in_progress, actual_start_date := some 100 } := by
  obtain ⟨st2, hok, h1, h2, h3⟩ :=
    (approvePhase_spec [ph1W, ph2W] 1 "pm" none 100 200 ph1W (by decide) (by decide)).2 rfl
  exact ⟨st2, hok, h1, h2 ph2W (by decide) rfl⟩

/-- C4: with `sequence_overridden` false and `order > 1`, `start_phase`
fails with SequenceViolation whenever the predecessor phase (same
project, order − 1) exists and is not `APPROVED` — the erroring call
returns no new state; a phase of order 1 has no predecessor guard and
starts; and after `override_phase_sequence` has succeeded on a phase, a
subsequent start of that phase bypasses the guard and succeeds. -/
theorem startPhase_guard_spec (st : List OfferLifecyclePhase) (phaseId : Nat)
    (today today2 now : Int) (user reason : String)
    (phase : OfferLifecyclePhase) (hfind : findPhase st phaseId = some phase) :
    (∀ prev_phase, 1 < phase.order → phase.sequence_overridden = false →
      findPhaseByOrder st phase.project_id (phase.order - 1) = some prev_phase →
      prev_phase.status ≠ PhaseStatus.approved →
      startPhase st phaseId today = Except.error LifecycleError.sequenceViolation) ∧
    (phase.order = 1 → ∃ st2, startPhase st phaseId today = Except.ok st2) ∧
    (∀ st1, overridePhaseSequence st phaseId user reason today now = Except.ok st1 →
      ∃ st2, startPhase st1 phaseId today2 = Except.ok st2) := by
  refine ⟨fun prev_phase h1 h2 hprev hps => ?_, fun h1 => ?_, fun st1 hok => ?_⟩
  · unfold startPhase
    rw [hfind]
    dsimp only
    rw [hprev]
    simp [h1, h2, hps]
  · unfold startPhase
    rw [hfind]
    dsimp only
    rw [if_neg (show ¬(phase.order > 1 ∧ phase.sequence_overridden = false) from
      fun hc => absurd hc.1 (by omega))]
    exact ⟨_, rfl⟩
  · unfold overridePhaseSequence at hok
    rw [hfind] at hok
    dsimp only at hok
    injection hok with hst1
    subst hst1
    unfold startPhase
    rw [findPhase_map st _ (fun p => ?_) phaseId, hfind]
    · dsimp only [Option.map]
      rw [if_pos (rfl : phase.id = phase.id)]
      dsimp only
      rw [if_neg (show ¬(phase.order > 1 ∧ (true : Bool) = false) from
        fun hc => by cases hc.2)]
      exact ⟨_, rfl⟩
    · by_cases hid : p.id = phase.id <;> simp [hid]

/-- Fixture: phase 1 of project 1 in progress (so not approved). -/
def ph1S : OfferLifecyclePhase :=
  { id := 1, project_id := 1, phase := LifecyclePhase.concept,
    status := PhaseStatus.in_progress, order := 1 }

/-- Fixture: phase 2 of project 1, not started and not overridden. -/
def ph2S : OfferLifecyclePhase :=
  { id := 2, project_id := 1, phase := LifecyclePhase.define,
    status := PhaseStatus.not_started, order := 2 }

/-- Phase 2 after `override_phase_sequence` ran at today = 50, now = 60. -/
def ph2Ov : OfferLifecyclePhase :=
  { ph2S with
    sequence_overridden := true, override_reason := some "parallel track",
    overridden_by := some "pm", overridden_at := some 60,
    status := PhaseStatus.in_progress, actual_start_date := some 50 }

/-- Witness for C4: starting phase 2 while phase 1 is only `IN_PROGRESS`
fails with SequenceViolation; starting phase 1 (order 1) succeeds; after
the override of phase 2 a start of phase 2 succeeds. -/
theorem startPhase_guard_spec_witness :
    startPhase [ph1S, ph2S] 2 50 = Except.error LifecycleError.sequenceViolation ∧
    (∃ st2, startPhase [ph1S, ph2S] 1 50 = Except.ok st2) ∧
    (∃ st2, startPhase [ph1S, ph2Ov] 2 70 = Except.ok st2) :=
  ⟨(startPhase_guard_spec [ph1S, ph2S] 2 50 70 60 "pm" "parallel track" ph2S
      (by decide)).1 ph1S (by decide) rfl (by decide) (by decide),
   (startPhase_guard_spec [ph1S, ph2S] 1 50 70 60 "pm" "parallel track" ph1S
      (by decide)).2.1 rfl,
   (startPhase_guard_spec [ph1S, ph2S] 2 50 70 60 "pm" "parallel track" ph2S
      (by decide)).2.2 [ph1S, ph2Ov] rfl⟩

/-- C10: `start_phase` imposes no precondition on the phase's own status:
whenever the predecessor guard is satisfied (order ≤ 1, or overridden, or
any existing predecessor approved), the call succeeds and the returned
state holds the phase with status forced to `IN_PROGRESS` and
`actual_start_date` overwritten with today — whatever the status was
before, including `APPROVED`. -/
theorem startPhase_ignores_own_status (st : List OfferLifecyclePhase) (phaseId : Nat)
    (today : Int) (phase : OfferLifecyclePhase)
    (hfind : findPhase st phaseId = some phase)
    (hguard : phase.order ≤ 1 ∨ phase.sequence_overridden = true ∨
      ∀ prev_phase, findPhaseByOrder st phase.project_id (phase.order - 1) = some prev_phase →
        prev_phase.status = PhaseStatus.approved) :
    ∃ st2, startPhase st phaseId today = Except.ok st2 ∧
      findPhase st2 phaseId = some { phase with
        status := PhaseStatus.in_progress, actual_start_date := some today } := by
  unfold startPhase
  rw [hfind]
  dsimp only
  rcases hguard with h | h | h
  · rw [if_neg (show ¬(phase.order > 1 ∧ phase.sequence_overridden = false) from
      fun hc => absurd hc.1 (by omega))]
    refine ⟨_, rfl, ?_⟩
    rw [findPhase_map st _ (fun p => ?_) phaseId, hfind]
    · simp
    · by_cases hid : p.id = phase.id <;> simp [hid]
  · rw [if_neg (show ¬(phase.order > 1 ∧ phase.sequence_overridden = false) from
      fun hc => by rw [h] at hc; cases hc.2)]
    refine ⟨_, rfl, ?_⟩
    rw [findPhase_map st _ (fun p => ?_) phaseId, hfind]
    · simp
    · by_cases hid : p.id = phase.id <;> simp [hid]
  · rcases hp : findPhaseByOrder st phase.project_id (phase.order - 1) with _ | prev
    · dsimp only
      rw [ite_self]
      refine ⟨_, rfl, ?_⟩
      rw [findPhase_map st _ (fun p => ?_) phaseId, hfind]
      · simp
      · by_cases hid : p.id = phase.id <;> simp [hid]
    · have hps := h prev hp
      dsimp only
      simp only [hps]
      rw [show (decide (PhaseStatus.approved ≠ PhaseStatus.approved)) = false by decide,
        ite_self]
      refine ⟨_, rfl, ?_⟩
      rw [findPhase_map st _ (fun p => ?_) phaseId, hfind]
      · simp
      · by_cases hid : p.id = phase.id <;> simp [hid]

/-- Fixture: an already approved first phase. -/
def ph1A : OfferLifecyclePhase :=
  { id := 1, project_id := 1, phase := LifecyclePhase.concept,
    status := PhaseStatus.approved, order := 1, actual_start_date := some 10 }

/-- Witness for C10: restarting the already approved phase 1 succeeds and
silently moves it back to `IN_PROGRESS`, overwriting its start date. -/
theorem startPhase_ignores_own_status_witness :
    ∃ st2, startPhase [ph1A] 1 99 = Except.ok st2 ∧
      findPhase st2 1 = some { ph1A with
        status := PhaseStatus.in_progress, actual_start_date := some 99 } :=
  startPhase_ignores_own_status [ph1A] 1 99 ph1A (by decide) (Or.inl (by decide))

end AutoPM
